import Mathlib

/-!
Shallow embedding of the TAPL exercise repository (crates
`01_untyped_arith`, `03_typed_arith`, `04_simply_typed_lambda`).

Every definition is a direct translation of a Rust item in the sources;
the doc comment of each definition names the file and the item it embeds.
Rust `usize`/`u8` become `Nat` (the `u8` arithmetic of the evaluators
keeps its debug-build overflow/underflow panics as explicit `panic`
outcomes).  A Rust computation with no defined behavior at some input —
an `unreachable!()` panic, an infinite recursion, or a match arm whose
body is not valid Rust — is embedded as `none` of an `Option` result.
-/

namespace Arith

/-- `01_untyped_arith/src/parser.rs` lines 13-23: enum `Term`.
`03_typed_arith` imports this same type (`use untyped_arith::parser::Term`). -/
inductive Term where
  | TmTrue : Term
  | TmFalse : Term
  | TmZero : Term
  | TmSucc : Term → Term
  | TmPred : Term → Term
  | TmIsZero : Term → Term
  | TmIf : Term → Term → Term → Term
deriving DecidableEq

/-- `01_untyped_arith/src/parser.rs` lines 26-28: `Term::is_zero`,
a purely syntactic comparison `self == &Term::TmZero`. -/
def Term.is_zero (t : Term) : Bool :=
  decide (t = Term.TmZero)

/-- `01_untyped_arith/src/eval.rs` lines 8-12 and `03_typed_arith/src/eval.rs`
lines 13-17: both crates define the identical enum
`Value { Boolean(bool), Numeric(u8) }`.  `Numeric` carries a `u8`; we model it
as a `Nat` and keep the `u8` bounds explicit at each arithmetic operation. -/
inductive Value where
  | Boolean : Bool → Value
  | Numeric : Nat → Value
deriving DecidableEq

/-- Result of running `01_untyped_arith`'s `eval_term`: the Rust function
returns `Result<Value, Error>` but never constructs an `Err` itself — its
only failure modes are `panic!` calls and debug-build integer
overflow/underflow panics, modelled by the `panic` constructor. -/
inductive Outcome01 where
  | ok : Value → Outcome01
  | panic : String → Outcome01
deriving DecidableEq

/-- `01_untyped_arith/src/eval.rs` lines 36-71: `eval_term`.
  * `TmSucc`: `number + 1` on `u8` — at 255 a debug build panics with
    "attempt to add with overflow"; non-numeric child panics (line 45).
  * `TmPred`: `number - 1` on `u8` — at 0 a debug build panics with
    "attempt to subtract with overflow"; non-numeric child panics (line 53).
  * `TmIsZero`: `Value::Boolean(term.is_zero())` (line 57) — syntactic,
    the child is never evaluated.
  * `TmIf`: evaluates the condition; non-boolean condition panics (line 66). -/
def eval_term01 : Term → Outcome01
  | .TmTrue => .ok (.Boolean true)
  | .TmFalse => .ok (.Boolean false)
  | .TmZero => .ok (.Numeric 0)
  | .TmSucc t =>
    match eval_term01 t with
    | .ok (.Numeric n) =>
      if n = 255 then .panic "attempt to add with overflow"
      else .ok (.Numeric (n + 1))
    | .ok _ => .panic "succ MUST operate with Numeric"
    | .panic m => .panic m
  | .TmPred t =>
    match eval_term01 t with
    | .ok (.Numeric n) =>
      if n = 0 then .panic "attempt to subtract with overflow"
      else .ok (.Numeric (n - 1))
    | .ok _ => .panic "pred MUST operate with Numeric"
    | .panic m => .panic m
  | .TmIsZero t => .ok (.Boolean t.is_zero)
  | .TmIf c t e =>
    match eval_term01 c with
    | .ok (.Boolean b) => if b then eval_term01 t else eval_term01 e
    | .ok _ => .panic "if condition MUST operate with Boolean"
    | .panic m => .panic m

/-- `03_typed_arith/src/eval.rs` lines 7-11: enum `Type { Boolean, Numeric }`. -/
inductive Ty03 where
  | Boolean : Ty03
  | Numeric : Ty03
deriving DecidableEq

/-- `03_typed_arith/src/eval.rs` lines 19-22: `Error { msg: String }`.
The source builds the message with `format!`; we model each distinct
message shape as one constructor carrying the same payload terms:
  * `mustBeNumeric t`  = "term {t:?} MUST be Numeric"
  * `mustBeBoolean t`  = "term {t:?} MUST be Boolean"
  * `branchMismatch t e` = "then term {t:?} mismatch with else term {e:?}" -/
inductive TAError where
  | mustBeNumeric : Term → TAError
  | mustBeBoolean : Term → TAError
  | branchMismatch : Term → Term → TAError
deriving DecidableEq

/-- `03_typed_arith/src/eval.rs` lines 41-96: `term_type`.
Note `TmIsZero` is typed `Numeric` by this function (lines 62-69), exactly
as in the source.  In `TmIf`, the then-branch is typed before the
else-branch, so a then-branch typing error takes precedence (lines 74-75). -/
def term_type : Term → Except TAError Ty03
  | .TmTrue => .ok .Boolean
  | .TmFalse => .ok .Boolean
  | .TmZero => .ok .Numeric
  | .TmSucc t =>
    match term_type t with
    | .ok .Numeric => .ok .Numeric
    | .ok _ => .error (.mustBeNumeric t)
    | .error e => .error e
  | .TmPred t =>
    match term_type t with
    | .ok .Numeric => .ok .Numeric
    | .ok _ => .error (.mustBeNumeric t)
    | .error e => .error e
  | .TmIsZero t =>
    match term_type t with
    | .ok .Numeric => .ok .Numeric
    | .ok _ => .error (.mustBeNumeric t)
    | .error e => .error e
  | .TmIf c t e =>
    match term_type c with
    | .ok .Boolean =>
      match term_type t, term_type e with
      | .ok thenTy, .ok elseTy =>
        if thenTy ≠ elseTy then .error (.branchMismatch t e) else .ok thenTy
      | .error err, _ => .error err
      | _, .error err => .error err
    | .ok _ => .error (.mustBeBoolean c)
    | .error err => .error err

/-- Result of running `03_typed_arith`'s `eval_term`: `Result<Value, Error>`
plus the debug-build arithmetic panics of `number + 1` / `number - 1`. -/
inductive Outcome03 where
  | ok : Value → Outcome03
  | err : TAError → Outcome03
  | panic : String → Outcome03
deriving DecidableEq

/-- `03_typed_arith/src/eval.rs` lines 98-147: `eval_term`.
  * `TmSucc`/`TmPred`: same `u8` arithmetic as the untyped crate, but a
    non-numeric child is a returned `Err` rather than a panic.
  * `TmIsZero` (lines 123-130): type-checks the child with `term_type`
    (propagating its error via `?`, and erroring when the type is not
    `Numeric`), then returns `Boolean(term.is_zero())` without evaluating
    the child.
  * `TmIf` (lines 131-144): first type-checks the whole `if` term
    (`let _ = term_type(term)?`), then evaluates the condition. -/
def eval_term03 : Term → Outcome03
  | .TmTrue => .ok (.Boolean true)
  | .TmFalse => .ok (.Boolean false)
  | .TmZero => .ok (.Numeric 0)
  | .TmSucc t =>
    match eval_term03 t with
    | .ok (.Numeric n) =>
      if n = 255 then .panic "attempt to add with overflow"
      else .ok (.Numeric (n + 1))
    | .ok _ => .err (.mustBeNumeric t)
    | .err e => .err e
    | .panic m => .panic m
  | .TmPred t =>
    match eval_term03 t with
    | .ok (.Numeric n) =>
      if n = 0 then .panic "attempt to subtract with overflow"
      else .ok (.Numeric (n - 1))
    | .ok _ => .err (.mustBeNumeric t)
    | .err e => .err e
    | .panic m => .panic m
  | .TmIsZero t =>
    match term_type t with
    | .ok .Numeric => .ok (.Boolean t.is_zero)
    | .ok _ => .err (.mustBeNumeric t)
    | .error e => .err e
  | .TmIf c t e =>
    match term_type (.TmIf c t e) with
    | .error e2 => .err e2
    | .ok _ =>
      match eval_term03 c with
      | .ok (.Boolean b) => if b then eval_term03 t else eval_term03 e
      | .ok _ => .err (.mustBeBoolean c)
      | .err e2 => .err e2
      | .panic m => .panic m

end Arith

namespace Stlc

/-- `04_simply_typed_lambda/src/typing.rs` lines 16-20: enum
`Type { Boolean, Number }`.  These are the only variants in the source;
the crate defines no arrow/function type. -/
inductive Ty where
  | Boolean : Ty
  | Number : Ty
deriving DecidableEq

/-- `04_simply_typed_lambda/src/parser.rs` lines 72-83: enum `Term`
(de Bruijn indexed).  The enum in `parser.rs` has no `TmIf` variant, yet
`substitute.rs` line 39 and `eval.rs` line 29 both match on `Term::TmIf`
(the crate as committed is internally inconsistent and does not build);
we include the variant so that those files can be embedded as written.
No theorem below depends on `TmIf` being producible by the resolver. -/
inductive Term where
  | TmTrue : Term
  | TmFalse : Term
  | TmZero : Term
  | TmSucc : Term → Term
  | TmVar : Nat → Term
  | TmAbs : Ty → Term → Term
  | TmApp : Term → Term → Term
  | TmIf : Term → Term → Term → Term
deriving DecidableEq

/-- `04_simply_typed_lambda/src/substitute.rs` lines 43-47:
enum `Direction { Up, Down }`. -/
inductive Direction where
  | Up : Direction
  | Down : Direction
deriving DecidableEq

/-- `04_simply_typed_lambda/src/substitute.rs` lines 74-86:
`Shifting::visit_var` on the index `n` of a `TmVar`: when `n >= cutoff`,
`Up` does `*n += 1` and `Down` does `*n -= 1`; otherwise `n` is unchanged.
The `Down` case at `n = 0` would be a `usize` underflow (a debug-build
panic); it is modelled by truncated `Nat` subtraction, and the round-trip
theorem below only ever decrements indices that were just incremented. -/
def shiftVar (d : Direction) (cutoff n : Nat) : Nat :=
  if n ≥ cutoff then
    match d with
    | .Up => n + 1
    | .Down => n - 1
  else n

/-- `04_simply_typed_lambda/src/substitute.rs` lines 27-41 and 73-93:
the `Shifting` visitor run by `visit_term`/`walk_mut_term`: constants are
left alone, `TmSucc`/`TmApp`/`TmIf` recurse structurally with the same
cutoff, `visit_abs` (lines 88-92) increments the cutoff around the body,
and `visit_var` applies `shiftVar`. -/
def shiftVisit (d : Direction) : Nat → Term → Term
  | _, .TmTrue => .TmTrue
  | _, .TmFalse => .TmFalse
  | _, .TmZero => .TmZero
  | cutoff, .TmSucc t => .TmSucc (shiftVisit d cutoff t)
  | cutoff, .TmVar n => .TmVar (shiftVar d cutoff n)
  | cutoff, .TmAbs ty body => .TmAbs ty (shiftVisit d (cutoff + 1) body)
  | cutoff, .TmApp t1 t2 => .TmApp (shiftVisit d cutoff t1) (shiftVisit d cutoff t2)
  | cutoff, .TmIf a b c => .TmIf (shiftVisit d cutoff a) (shiftVisit d cutoff b) (shiftVisit d cutoff c)

/-- `04_simply_typed_lambda/src/substitute.rs` lines 107-122: the
`Substitution` visitor with replacement term `repl` (the struct field
`term`, cloned at every replaced variable).  `visit_var` (lines 108-115)
matches `TmVar n` with guard `n >= cutoff` and overwrites the node with a
clone of `repl`; every other `TmVar` falls to the `unreachable!()` arm —
a panic, modelled as `none`.  `visit_abs` (lines 117-121) increments the
cutoff around the body; the remaining cases recurse structurally via
`walk_mut_term`, aborting if any child panics. -/
def substVisit (cutoff : Nat) (repl : Term) : Term → Option Term
  | .TmTrue => some .TmTrue
  | .TmFalse => some .TmFalse
  | .TmZero => some .TmZero
  | .TmSucc t => (substVisit cutoff repl t).map .TmSucc
  | .TmVar n => if n ≥ cutoff then some repl else none
  | .TmAbs ty body => (substVisit (cutoff + 1) repl body).map (.TmAbs ty)
  | .TmApp t1 t2 =>
    match substVisit cutoff repl t1, substVisit cutoff repl t2 with
    | some a, some b => some (.TmApp a b)
    | _, _ => none
  | .TmIf a b c =>
    match substVisit cutoff repl a, substVisit cutoff repl b, substVisit cutoff repl c with
    | some x, some y, some z => some (.TmIf x y z)
    | _, _, _ => none

/-- `04_simply_typed_lambda/src/substitute.rs` lines 124-128: `substitution`:
shift `val` up with cutoff 0, run the `Substitution` visitor over `body`
with that shifted value, then shift the result down with cutoff 0. -/
def substitution (val body : Term) : Option Term :=
  (substVisit 0 (shiftVisit .Up 0 val) body).map (shiftVisit .Down 0)

/-- `04_simply_typed_lambda/src/parser.rs` lines 48-56:
`DeBruijnIndexer::push`.  When the name hint is already in the deque the
source calls itself again with the very same receiver and argument
(`self.push(hint)`), so it can never make progress; the extra `fuel`
parameter makes the non-termination observable: `none` means the
recursion has not produced a result within `fuel` unfoldings.  When the
hint is fresh, the index `self.inner.len()` is computed before the
`push_front`. -/
def DeBruijnIndexer.push : Nat → List String → String → Option (List String × Nat)
  | 0, _, _ => none
  | fuel + 1, inner, hint =>
    if inner.contains hint then DeBruijnIndexer.push fuel inner hint
    else some (hint :: inner, inner.length)

/-- `04_simply_typed_lambda/src/parser.rs` lines 62-69:
`DeBruijnIndexer::lookup`: scan from the front (most recently pushed),
returning the position of the first binding equal to the key. -/
def DeBruijnIndexer.lookup : List String → String → Option Nat
  | [], _ => none
  | s :: rest, key =>
    if key = s then some 0
    else (DeBruijnIndexer.lookup rest key).map (fun idx => idx + 1)

/-- `04_simply_typed_lambda/src/parser.rs` lines 20-29: enum `ASTTerm`,
the named-variable tree consumed by `Parser::from_ast_term` (this enum,
unlike the one in `ast_parser.rs`, has no `TmIf` variant). -/
inductive ASTTerm where
  | TmTrue : ASTTerm
  | TmFalse : ASTTerm
  | TmZero : ASTTerm
  | TmSucc : ASTTerm → ASTTerm
  | TmVar : String → ASTTerm
  | TmAbs : String → Ty → ASTTerm → ASTTerm
  | TmApp : ASTTerm → ASTTerm → ASTTerm
deriving DecidableEq

/-- `04_simply_typed_lambda/src/parser.rs` lines 89-93: enum `ParseError`. -/
inductive ParseError where
  | VerboseError : String → ParseError
  | UnboundVariable : String → ParseError
deriving DecidableEq

/-- `04_simply_typed_lambda/src/parser.rs` lines 120-151:
`Parser::from_ast_term`.  The mutable field `self.context` is threaded
explicitly: the result pairs the context as left behind by the call with
the `Result`.  A `none` result models an execution with no defined
outcome: the abstraction case first calls `self.context.push(arg)`,
which never returns when `arg` is already in the context
(`parser.rs` lines 49-51).  In the abstraction case the `?` on the body
(line 138) returns before the `pop` on line 140, so on a body error the
pushed binding is left in the context. -/
def fromAstTerm : List String → ASTTerm → Option (List String × Except ParseError Term)
  | ctx, .TmTrue => some (ctx, .ok .TmTrue)
  | ctx, .TmFalse => some (ctx, .ok .TmFalse)
  | ctx, .TmZero => some (ctx, .ok .TmZero)
  | ctx, .TmSucc number =>
    match fromAstTerm ctx number with
    | none => none
    | some (ctx2, .ok t) => some (ctx2, .ok (.TmSucc t))
    | some (ctx2, .error e) => some (ctx2, .error e)
  | ctx, .TmVar id =>
    match DeBruijnIndexer.lookup ctx id with
    | some index => some (ctx, .ok (.TmVar index))
    | none => some (ctx, .error (.UnboundVariable id))
  | ctx, .TmAbs arg ty body =>
    if ctx.contains arg then none
    else
      match fromAstTerm (arg :: ctx) body with
      | none => none
      | some (ctx2, .ok t) => some (ctx2.tail, .ok (.TmAbs ty t))
      | some (ctx2, .error e) => some (ctx2, .error e)
  | ctx, .TmApp l r =>
    match fromAstTerm ctx l with
    | none => none
    | some (ctx1, .error e) => some (ctx1, .error e)
    | some (ctx1, .ok lt) =>
      match fromAstTerm ctx1 r with
      | none => none
      | some (ctx2, .error e) => some (ctx2, .error e)
      | some (ctx2, .ok rt) => some (ctx2, .ok (.TmApp lt rt))

/-- `04_simply_typed_lambda/src/eval.rs` lines 9-13: enum `EvalError`. -/
inductive EvalError where
  | VerboseError : String → EvalError
  | TypeError : String → EvalError
  | NoRuleApplies : EvalError
deriving DecidableEq

/-- `04_simply_typed_lambda/src/eval.rs` lines 27-44: `eval1` (the unused
`&mut Context` parameter is dropped; `context.rs` is absent from the
sources and `eval1` never reads it).  The `TmIf` arm is embedded as
written: a `TmTrue`/`TmFalse` guard selects a branch, otherwise the guard
is stepped through `eval` — which is just `eval1` (lines 46-49).  The
`TmApp` arm on line 41 is not valid Rust (`TmAbs` pattern of the wrong
arity, unbound identifiers, an `if` with a unit body as the match value),
so `TmApp` has no defined behavior: modelled as `none`.  Every other
variant, `TmSucc` included, falls to the catch-all
`_ => Err(EvalError::NoRuleApplies)` on line 42. -/
def eval1 : Term → Option (Except EvalError Term)
  | .TmIf guard thenT elseT =>
    match guard with
    | .TmTrue => some (.ok thenT)
    | .TmFalse => some (.ok elseT)
    | g =>
      match eval1 g with
      | none => none
      | some (.ok g2) => some (.ok (.TmIf g2 thenT elseT))
      | some (.error e) => some (.error e)
  | .TmApp _ _ => none
  | _ => some (.error .NoRuleApplies)

end Stlc

namespace Stlc

theorem shiftVar_down_up (c n : Nat) :
    shiftVar .Down c (shiftVar .Up c n) = n := by
  by_cases h : c ≤ n
  · have h2 : c ≤ n + 1 := Nat.le_succ_of_le h
    simp [shiftVar, h, h2]
  · simp [shiftVar, h]

theorem shiftVisit_down_up (t : Term) :
    ∀ c, shiftVisit .Down c (shiftVisit .Up c t) = t := by
  induction t with
  | TmTrue => intro c; rfl
  | TmFalse => intro c; rfl
  | TmZero => intro c; rfl
  | TmSucc t ih => intro c; simp [shiftVisit, ih]
  | TmVar n => intro c; simp [shiftVisit, shiftVar_down_up]
  | TmAbs ty body ih => intro c; simp [shiftVisit, ih]
  | TmApp t1 t2 ih1 ih2 => intro c; simp [shiftVisit, ih1, ih2]
  | TmIf a b c iha ihb ihc => intro cut; simp [shiftVisit, iha, ihb, ihc]

/-- Claim C5: for every term `t`, shifting `t` up by 1 with cutoff 0 and then
shifting the result down by 1 with cutoff 0 yields `t` again
(`substitute.rs`, the `Shifting` visitor). -/
theorem shift_round_trip (t : Term) :
    shiftVisit .Down 0 (shiftVisit .Up 0 t) = t :=
  shiftVisit_down_up t 0

/-- Witness for `shift_round_trip` at the concrete term `λ:Bool. Var 0`. -/
theorem shift_round_trip_witness :
    shiftVisit .Down 0 (shiftVisit .Up 0 (Term.TmAbs Ty.Boolean (Term.TmVar 0)))
      = Term.TmAbs Ty.Boolean (Term.TmVar 0) :=
  shift_round_trip (Term.TmAbs Ty.Boolean (Term.TmVar 0))

/-- Claim C1 (evaluation of the code at the failing inputs): the
`Substitution` visitor of `substitute.rs` does not implement the three-way
cutoff split.  At cutoff 0 it replaces `Var 1` with the replacement term
instead of decrementing it to `Var 0`; under one binder (cutoff 1) it hits
the `unreachable!()` panic on `Var 0` instead of leaving it unchanged, so
the whole `substitution` entry point panics on the body `λ:Bool. Var 0`. -/
theorem substitution_var_no_three_way_split (r : Term) :
    substVisit 0 r (Term.TmVar 1) = some r
    ∧ substVisit 0 r (Term.TmAbs Ty.Boolean (Term.TmVar 0)) = none
    ∧ substitution Term.TmZero (Term.TmAbs Ty.Boolean (Term.TmVar 0)) = none :=
  ⟨rfl, rfl, rfl⟩

/-- Witness for `substitution_var_no_three_way_split` at the concrete
replacement `true`. -/
theorem substitution_var_no_three_way_split_witness :
    substVisit 0 Term.TmTrue (Term.TmVar 1) = some Term.TmTrue
    ∧ substVisit 0 Term.TmTrue (Term.TmAbs Ty.Boolean (Term.TmVar 0)) = none
    ∧ substitution Term.TmZero (Term.TmAbs Ty.Boolean (Term.TmVar 0)) = none :=
  substitution_var_no_three_way_split Term.TmTrue

/-- Claim C2 (evaluation of the code at the failing input):
`DeBruijnIndexer::push` never terminates when the pushed name already
occurs in the context: no amount of fuel makes the self-call with
unchanged arguments produce a result. -/
theorem push_loops_on_duplicate (fuel : Nat) (inner : List String) (hint : String)
    (h : inner.contains hint = true) :
    DeBruijnIndexer.push fuel inner hint = none := by
  induction fuel with
  | zero => rfl
  | succ n ih =>
    simp [DeBruijnIndexer.push, ih]
    simpa using h

/-- Witness for `push_loops_on_duplicate` at fuel 100, context `["x"]`,
name `"x"`. -/
theorem push_loops_on_duplicate_witness :
    (["x"].contains "x" = true)
    ∧ DeBruijnIndexer.push 100 ["x"] "x" = none :=
  ⟨by decide, push_loops_on_duplicate 100 ["x"] "x" (by decide)⟩

/-- Claim C3 (evaluation of the code): the type algebra of
`typing.rs` consists of exactly the two variants `Boolean` and `Number`;
there is no `Arrow` variant at all (and the crate's `type_of` is a
commented-out block), so no abstraction can be given an arrow type. -/
theorem ty_has_only_boolean_and_number (t : Ty) :
    t = Ty.Boolean ∨ t = Ty.Number := by
  cases t with
  | Boolean => exact Or.inl rfl
  | Number => exact Or.inr rfl

/-- Witness for `ty_has_only_boolean_and_number` at `Ty.Boolean`. -/
theorem ty_has_only_boolean_and_number_witness :
    Ty.Boolean = Ty.Boolean ∨ Ty.Boolean = Ty.Number :=
  ty_has_only_boolean_and_number Ty.Boolean

/-- Claim C4 (evaluation of the code at the failing input): resolving
`λx:Bool. y` in the empty context pushes `"x"`, fails on the unbound body
variable `"y"`, and returns through `?` without popping: the context
after the call is `["x"]`, not the empty context it started from. -/
theorem from_ast_term_leaks_push_on_error :
    fromAstTerm [] (ASTTerm.TmAbs "x" Ty.Boolean (ASTTerm.TmVar "y"))
      = some (["x"], Except.error (ParseError.UnboundVariable "y")) := rfl

/-- Claim C6 (evaluation of the code at the failing input): `eval1` of
`04_simply_typed_lambda/src/eval.rs` has no congruence rule for `TmSucc`:
on `Succ(if true then 0 else 0)` it reports `NoRuleApplies` even though
the child itself steps to `0`. -/
theorem eval1_succ_child_steps_but_no_rule :
    eval1 (Term.TmSucc (Term.TmIf Term.TmTrue Term.TmZero Term.TmZero))
      = some (.error EvalError.NoRuleApplies)
    ∧ eval1 (Term.TmIf Term.TmTrue Term.TmZero Term.TmZero)
      = some (.ok Term.TmZero) :=
  ⟨rfl, rfl⟩

/-- Claim C8: whenever a named variable is not found in the context,
`Parser::from_ast_term` fails with `UnboundVariable` carrying that name,
leaving the context unchanged. -/
theorem unbound_variable_reported (ctx : List String) (id : String)
    (h : DeBruijnIndexer.lookup ctx id = none) :
    fromAstTerm ctx (ASTTerm.TmVar id)
      = some (ctx, Except.error (ParseError.UnboundVariable id)) := by
  simp [fromAstTerm, h]

/-- Witness for `unbound_variable_reported`: resolving the bare variable
`x` against the empty context fails with `UnboundVariable("x")`. -/
theorem unbound_variable_reported_witness :
    DeBruijnIndexer.lookup [] "x" = none
    ∧ fromAstTerm [] (ASTTerm.TmVar "x")
      = some ([], Except.error (ParseError.UnboundVariable "x")) :=
  ⟨rfl, unbound_variable_reported [] "x" rfl⟩

end Stlc

namespace Arith

/-- Claim C7: in `03_typed_arith`'s `term_type`, an `If` whose condition
types to something other than `Boolean` fails with the "MUST be Boolean"
type-mismatch error; with a `Boolean` condition, unequal branch types fail
with the branch-mismatch error and equal branch types yield that common
type; in particular `if 0 then true else false` fails to type. -/
theorem term_type_if_rules (c t e : Term) (tc : Ty03)
    (hc : term_type c = .ok tc) :
    (tc ≠ .Boolean → term_type (.TmIf c t e) = .error (.mustBeBoolean c))
    ∧ (∀ tt te, tc = .Boolean → term_type t = .ok tt → term_type e = .ok te →
        (tt ≠ te → term_type (.TmIf c t e) = .error (.branchMismatch t e))
        ∧ (tt = te → term_type (.TmIf c t e) = .ok tt))
    ∧ term_type (.TmIf .TmZero .TmTrue .TmFalse)
        = .error (.mustBeBoolean .TmZero) := by
  refine ⟨?_, ?_, rfl⟩
  · intro hne
    cases tc with
    | Boolean => exact absurd rfl hne
    | Numeric => simp [term_type, hc]
  · intro tt te hB ht he
    subst hB
    constructor
    · intro hne
      simp [term_type, hc, ht, he, hne]
    · intro heq
      subst heq
      simp [term_type, hc, ht, he]

/-- Witness for `term_type_if_rules`: the condition `0` types to `Numeric`,
so `if 0 then true else false` fails with the "MUST be Boolean" error; and
with condition `true`, the branches `0` and `false` disagree, giving the
branch-mismatch error. -/
theorem term_type_if_rules_witness :
    term_type Term.TmZero = .ok .Numeric
    ∧ term_type (.TmIf .TmZero .TmTrue .TmFalse)
        = .error (.mustBeBoolean .TmZero)
    ∧ term_type (.TmIf .TmTrue .TmZero .TmFalse)
        = .error (.branchMismatch .TmZero .TmFalse) :=
  ⟨rfl,
   (term_type_if_rules .TmZero .TmTrue .TmFalse .Numeric rfl).2.2,
   ((term_type_if_rules .TmTrue .TmZero .TmFalse .Boolean rfl).2.1
      .Numeric .Boolean rfl rfl rfl).1 (by decide)⟩

/-- Claim C9: in both arith evaluators, `iszero(t)` returns
`Boolean(true)` exactly when `t` is syntactically the literal `0`, and the
child is never evaluated first: `iszero(pred(succ(0)))` — whose child
evaluates to the numeric value `0` — yields `Boolean(false)`, and even
`iszero(pred(0))`, whose child would panic if evaluated, yields
`Boolean(false)`. -/
theorem iszero_is_syntactic (t : Term) :
    (eval_term01 (.TmIsZero t) = .ok (.Boolean true) ↔ t = .TmZero)
    ∧ (eval_term03 (.TmIsZero t) = .ok (.Boolean true) ↔ t = .TmZero)
    ∧ eval_term01 (.TmIsZero (.TmPred (.TmSucc .TmZero))) = .ok (.Boolean false)
    ∧ eval_term03 (.TmIsZero (.TmPred (.TmSucc .TmZero))) = .ok (.Boolean false)
    ∧ eval_term01 (.TmIsZero (.TmPred .TmZero)) = .ok (.Boolean false)
    ∧ eval_term03 (.TmIsZero (.TmPred .TmZero)) = .ok (.Boolean false) := by
  refine ⟨?_, ?_, rfl, rfl, rfl, rfl⟩
  · simp [eval_term01, Term.is_zero]
  · cases h : term_type t with
    | ok ty =>
      cases ty with
      | Numeric => simp [eval_term03, h, Term.is_zero]
      | Boolean =>
        simp [eval_term03, h]
        intro ht
        subst ht
        simp [term_type] at h
    | error err =>
      simp [eval_term03, h]
      intro ht
      subst ht
      simp [term_type] at h

/-- Witness for `iszero_is_syntactic` at the concrete child `0`:
`iszero(0)` evaluates to `Boolean(true)` in the untyped evaluator. -/
theorem iszero_is_syntactic_witness :
    eval_term01 (.TmIsZero .TmZero) = .ok (.Boolean true) :=
  (iszero_is_syntactic Term.TmZero).1.mpr rfl

/-- Claim C10: in both arith evaluators, `pred(t)` with a child evaluating
to the numeric value `0` computes `0 - 1` on a `u8`, an arithmetic
underflow that panics in debug builds instead of returning a value or a
structured error; in particular both evaluators panic on `pred(0)`. -/
theorem pred_zero_underflows (t : Term) :
    (eval_term01 t = .ok (.Numeric 0) →
      eval_term01 (.TmPred t) = .panic "attempt to subtract with overflow")
    ∧ (eval_term03 t = .ok (.Numeric 0) →
      eval_term03 (.TmPred t) = .panic "attempt to subtract with overflow")
    ∧ eval_term01 (.TmPred .TmZero) = .panic "attempt to subtract with overflow"
    ∧ eval_term03 (.TmPred .TmZero) = .panic "attempt to subtract with overflow" := by
  refine ⟨?_, ?_, rfl, rfl⟩
  · intro h
    simp [eval_term01, h]
  · intro h
    simp [eval_term03, h]

/-- Witness for `pred_zero_underflows`: the child `0` evaluates to the
numeric value `0` in both evaluators, and `pred(0)` panics in both. -/
theorem pred_zero_underflows_witness :
    eval_term01 Term.TmZero = .ok (.Numeric 0)
    ∧ eval_term01 (.TmPred .TmZero) = .panic "attempt to subtract with overflow"
    ∧ eval_term03 Term.TmZero = .ok (.Numeric 0)
    ∧ eval_term03 (.TmPred .TmZero) = .panic "attempt to subtract with overflow" :=
  ⟨rfl, (pred_zero_underflows Term.TmZero).1 rfl, rfl,
   (pred_zero_underflows Term.TmZero).2.1 rfl⟩

end Arith
